import Mathlib

/-!
Verification of the Pantos client library's orchestration layer.

The repository's public surface is `src/pantos/client/library/api.py`; the
business interactors it delegates to (bid aggregation/selection, transfers,
token deployments, balance queries) and the unit converter are not part of the
source tree, so those operations are modelled from the specification
(sections 4.1-4.4, 6 and 7 of `spec.md`), while the request shapes, default
argument values and the public error class come from `api.py` itself.
-/

namespace Pantos

/-- Blockchain identifiers: a closed enum used as the adapter-registry key
(`pantos.common.blockchains.base.Blockchain`; `FANTOM` and `AVALANCHE` appear
in the repository's tests, `ETHEREUM` in the spec). -/
inductive Blockchain where
  | avalanche
  | bnbChain
  | celo
  | cronos
  | ethereum
  | fantom
  | polygon
  | sonic
deriving DecidableEq, Repr

/-- Chain-specific string form of an on-chain account or contract address. -/
abbrev BlockchainAddress := String

/-- Unencrypted signing key material. -/
abbrev PrivateKey := String

/-- A token symbol such as "PAN". -/
abbrev TokenSymbol := String

/-- A token reference: either an address or a symbol
(`api.py`: `token_id : BlockchainAddress or TokenSymbol`). -/
inductive TokenId where
  | address (a : BlockchainAddress)
  | symbol (s : TokenSymbol)
deriving DecidableEq, Repr

/-- An account reference: either an address or an unencrypted private key
(`api.py`: `account_id : BlockchainAddress or PrivateKey`). -/
inductive AccountId where
  | address (a : BlockchainAddress)
  | privateKey (k : PrivateKey)
deriving DecidableEq, Repr

/-- A service node's offer to relay a transfer: fee (in the PAN token's
smallest subunit, non-negative), estimated execution time, and the end of
the bid's validity window. -/
structure ServiceNodeBid where
  fee : Nat
  executionTime : Nat
  validUntil : Nat
deriving DecidableEq, Repr

/-- A pair of a service node address and one of that node's bids, used both
as aggregation result and as an explicit caller override. -/
abbrev BlockchainAddressBidPair := BlockchainAddress × ServiceNodeBid

/-- The PAN token symbol (`pantos.client.library.constants.TOKEN_SYMBOL_PAN`,
imported by `api.py` as the default token). -/
def TOKEN_SYMBOL_PAN : TokenSymbol := "PAN"

/-! ### Unit converter (spec section 4.1) -/

/-- Failure of a unit conversion. -/
inductive UnitConversionError where
  | invalidAmount
deriving DecidableEq, Repr

/-- Modelled from the spec: the Unit Converter's `toSubunit(amount, decimals)`
(the converter is not in the source tree). A main-unit decimal value must be
expressible with no more than `decimals` fractional digits — i.e. scaling by
`10 ^ decimals` must yield an integer — otherwise the conversion fails with
an `InvalidAmount` error. -/
def toSubunit (x : ℚ) (decimals : ℕ) : Except UnitConversionError ℤ :=
  if (x * 10 ^ decimals).den = 1 then Except.ok (x * 10 ^ decimals).num
  else Except.error UnitConversionError.invalidAmount

/-- Modelled from the spec: the Unit Converter's `toMainUnit(amount, decimals)`
(the converter is not in the source tree): divides the integer subunit amount
by `10 ^ decimals`. -/
def toMainUnit (n : ℤ) (decimals : ℕ) : ℚ := (n : ℚ) / 10 ^ decimals

/-- `x` is expressible with at most `d` fractional digits: it is an integer
number of subunits. -/
def FracDigitsLE (x : ℚ) (d : ℕ) : Prop := ∃ n : ℤ, x = (n : ℚ) / 10 ^ d

/-! ### Bid aggregation and selection (spec section 4.2) -/

/-- Failure of `selectBid`. -/
inductive BidSelectionError where
  | noBidsAvailable
  | expiredBid
deriving DecidableEq, Repr

/-- The selection key of a candidate: fee first, then estimated execution
time, then the service-node address, compared lexicographically. -/
def bidKey (p : BlockchainAddressBidPair) : ℕ ×ₗ (ℕ ×ₗ String) :=
  toLex (p.2.fee, toLex (p.2.executionTime, p.1))

/-- Modelled from the spec: the Bid Aggregator/Selector's
`selectBid(bids, override)` (the `BidInteractor` is not in the source tree).
A supplied override is used verbatim if still within its validity window at
submission time, else the call fails with `ExpiredBid`; otherwise the bid
with the minimum fee is selected, ties broken by shorter estimated execution
time and then by lexicographically smaller service-node address; an empty
candidate set fails with `NoBidsAvailable`. -/
def selectBid (bids : List BlockchainAddressBidPair)
    (override : Option BlockchainAddressBidPair) (now : ℕ) :
    Except BidSelectionError BlockchainAddressBidPair :=
  match override with
  | some p =>
    if now ≤ p.2.validUntil then Except.ok p
    else Except.error BidSelectionError.expiredBid
  | none =>
    match bids.argmin bidKey with
    | some p => Except.ok p
    | none => Except.error BidSelectionError.noBidsAvailable

/-- A service node bid as returned to the caller of
`retrieve_service_node_bids`: its fee is a decimal when converted to the main
unit and an integer-valued decimal when kept in the subunit. -/
structure RetrievedBid where
  fee : ℚ
  executionTime : ℕ
  validUntil : ℕ
deriving DecidableEq, Repr

/-- Modelled from the spec: conversion of a bid's subunit fee per the
caller's `returnFeeInMainUnit` flag, using the PAN token's decimals. -/
def convertFee (fee : ℕ) (returnFeeInMainUnit : Bool) (decimals : ℕ) : ℚ :=
  if returnFeeInMainUnit then (fee : ℚ) / 10 ^ decimals else (fee : ℚ)

/-- Modelled from the spec: per-node post-processing of `retrieveBids`
(the `BidInteractor` is not in the source tree): bids whose validity window
has already elapsed relative to the retrieval time are discarded, and each
remaining bid's fee is converted per the `returnFeeInMainUnit` flag. -/
def processNodeBids (bs : List ServiceNodeBid) (now : ℕ)
    (returnFeeInMainUnit : Bool) (decimals : ℕ) : List RetrievedBid :=
  (bs.filter (fun b => now ≤ b.validUntil)).map
    (fun b =>
      { fee := convertFee b.fee returnFeeInMainUnit decimals
        executionTime := b.executionTime
        validUntil := b.validUntil })

/-- The environment seen by one bid-retrieval call: whether the adapter
registry can resolve each chain, the outcome of each per-node bid query
(`none` = node unreachable or query failed), the retrieval time, and the PAN
token's decimals. -/
structure BidQueryEnv where
  resolvable : Blockchain → Bool
  nodeQueryResults : List (BlockchainAddress × Option (List ServiceNodeBid))
  now : ℕ
  panDecimals : ℕ

/-- Failure of `retrieveServiceNodeBids`. -/
inductive BidRetrievalFailure where
  | bidRetrievalError
deriving DecidableEq, Repr

/-- The node queries that succeeded, with their bid lists. -/
def successfulQueries (env : BidQueryEnv) :
    List (BlockchainAddress × List ServiceNodeBid) :=
  env.nodeQueryResults.filterMap (fun p => p.2.map (fun bs => (p.1, bs)))

/-- Modelled from the spec: the Bid Aggregator/Selector's
`retrieveBids(sourceChain, destChain, returnInMainUnit)` (the
`BidInteractor` is not in the source tree). Fails with `BidRetrievalError`
if no adapter can be resolved for either chain or if there were node queries
and all of them failed; otherwise returns, per reachable node, its
non-expired bids with fees converted per the flag — unreachable nodes are
simply omitted. -/
def retrieveServiceNodeBids (env : BidQueryEnv)
    (sourceBlockchain destinationBlockchain : Blockchain)
    (returnFeeInMainUnit : Bool) :
    Except BidRetrievalFailure (List (BlockchainAddress × List RetrievedBid)) :=
  if ¬ env.resolvable sourceBlockchain ∨ ¬ env.resolvable destinationBlockchain
  then Except.error BidRetrievalFailure.bidRetrievalError
  else if env.nodeQueryResults ≠ [] ∧ successfulQueries env = [] then
    Except.error BidRetrievalFailure.bidRetrievalError
  else
    Except.ok ((successfulQueries env).map (fun p =>
      (p.1, processNodeBids p.2 env.now returnFeeInMainUnit env.panDecimals)))

/-- The default value of `api.py`'s `return_fee_in_main_unit` parameter of
`retrieve_service_node_bids` (from the source: `bool = True`). -/
def apiDefaultReturnFeeInMainUnit : Bool := true

/-! ### Token balance retrieval (spec sections 4 and 6; `api.py` lines 110-145) -/

/-- An amount of tokens, tagged by unit: an integer in the token's smallest
subunit, or a decimal in the token's main unit. -/
inductive Amount where
  | subunit (n : ℕ)
  | mainUnit (q : ℚ)
deriving DecidableEq, Repr

/-- Failure of `retrieveTokenBalance`. -/
inductive BalanceFailure where
  | balanceRetrievalError
deriving DecidableEq, Repr

/-- The adapter environment seen by one balance-retrieval call: address
derivation from a private key, token-id resolution to a concrete address,
the chain's balance query (`none` = balance cannot be retrieved), and the
token's decimals. -/
structure BalanceEnv where
  deriveAddress : PrivateKey → BlockchainAddress
  resolveToken : Blockchain → TokenId → BlockchainAddress
  balanceOf : Blockchain → BlockchainAddress → BlockchainAddress → Option ℕ
  decimals : ℕ

/-- Modelled from the spec: resolution of an `accountId` that is either an
address (used as is) or an unencrypted private key (from which the address
is derived). -/
def resolveAccount (env : BalanceEnv) : AccountId → BlockchainAddress
  | AccountId.address a => a
  | AccountId.privateKey k => env.deriveAddress k

/-- Modelled from the spec: the `TokenInteractor`'s balance retrieval (the
interactor is not in the source tree). Queries the token balance of the
resolved account for the resolved token; fails with `BalanceRetrievalError`
when the balance cannot be retrieved; returns an integer subunit amount or a
decimal main-unit amount per the `returnInMainUnit` flag. -/
def retrieveTokenBalance (env : BalanceEnv) (blockchain : Blockchain)
    (accountId : AccountId) (tokenId : TokenId) (returnInMainUnit : Bool) :
    Except BalanceFailure Amount :=
  match env.balanceOf blockchain (env.resolveToken blockchain tokenId)
      (resolveAccount env accountId) with
  | none => Except.error BalanceFailure.balanceRetrievalError
  | some n =>
    Except.ok (if returnInMainUnit then Amount.mainUnit ((n : ℚ) / 10 ^ env.decimals)
               else Amount.subunit n)

/-- The default value of `api.py`'s `token_id` parameter of
`retrieve_token_balance` (from the source: `_TOKEN_SYMBOL_PAN`). -/
def apiDefaultTokenId : TokenId := TokenId.symbol TOKEN_SYMBOL_PAN

/-- The default value of `api.py`'s `return_in_main_unit` parameter of
`retrieve_token_balance` (from the source: `bool = True`). -/
def apiDefaultReturnInMainUnit : Bool := true

/-! ### Transfer orchestrator (spec section 4.3; `api.py` lines 148-197) -/

/-- An opaque task identifier issued on successful submission. -/
abbrev TaskId := ℕ

/-- Handle to a submitted transfer: the chosen service node's address, the
chosen bid, and the task identifier (from
`pantos.client.library.entitites.ServiceNodeTaskInfo`). -/
structure ServiceNodeTaskInfo where
  serviceNodeAddress : BlockchainAddress
  bid : ServiceNodeBid
  taskId : TaskId
deriving DecidableEq, Repr

/-- A transfer request, with the fields of `api.py`'s
`TransferInteractor.TransferTokensRequest` (lines 194-196). -/
structure TransferRequest where
  sourceBlockchain : Blockchain
  destinationBlockchain : Blockchain
  senderPrivateKey : PrivateKey
  recipientAddress : BlockchainAddress
  sourceTokenId : TokenId
  tokenAmount : ℚ
  serviceNodeBid : Option BlockchainAddressBidPair
deriving DecidableEq, Repr

/-- Failure of `transferTokens`. -/
inductive TransferFailure where
  | noBidsAvailable
  | expiredBid
  | transferSubmissionError (cause : String)
deriving DecidableEq, Repr

/-- An observable adapter interaction of the transfer orchestrator. -/
inductive TransferEvent where
  | adapterSubmission (chain : Blockchain)
deriving DecidableEq, Repr

/-- The environment seen by one transfer: the candidate bids retrieved for
the chain pair, the source-chain adapter's submission outcome, and the
submission time. -/
structure TransferEnv where
  bids : List BlockchainAddressBidPair
  submitResult : Except String TaskId
  now : ℕ

/-- Modelled from the spec: the Transfer Orchestrator (the
`TransferInteractor` is not in the source tree). Resolves the bid via
`selectBid` — using the caller's override if present — strictly before any
adapter submission; any bid-resolution failure is fatal and no adapter
submission occurs; an adapter-level failure is wrapped into
`TransferSubmissionError`; on success a `ServiceNodeTaskInfo` is returned.
The result pairs the trace of adapter interactions with the outcome. -/
def transferTokens (env : TransferEnv) (req : TransferRequest) :
    List TransferEvent × Except TransferFailure ServiceNodeTaskInfo :=
  match selectBid env.bids req.serviceNodeBid env.now with
  | Except.error BidSelectionError.noBidsAvailable =>
    ([], Except.error TransferFailure.noBidsAvailable)
  | Except.error BidSelectionError.expiredBid =>
    ([], Except.error TransferFailure.expiredBid)
  | Except.ok p =>
    match env.submitResult with
    | Except.error e =>
      ([TransferEvent.adapterSubmission req.sourceBlockchain],
       Except.error (TransferFailure.transferSubmissionError e))
    | Except.ok tid =>
      ([TransferEvent.adapterSubmission req.sourceBlockchain],
       Except.ok ⟨p.1, p.2, tid⟩)

/-! ### Deployment coordinator (spec section 4.4; `api.py` lines 200-247) -/

/-- A token deployment request, with the fields of `api.py`'s
`TokenDeploymentInteractor.TokenDeploymentRequest` (lines 243-246). -/
structure TokenDeploymentRequest where
  tokenName : String
  tokenSymbol : String
  tokenDecimals : ℕ
  tokenPausable : Bool
  tokenBurnable : Bool
  tokenSupply : ℤ
  deploymentBlockchains : List Blockchain
  paymentBlockchain : Blockchain
  payerPrivateKey : PrivateKey
deriving DecidableEq, Repr

/-- An observable submission of the deployment coordinator.
`paymentRollback` is included so the no-rollback policy is expressible: the
coordinator never emits it. -/
inductive DeploymentEvent where
  | paymentSubmission (chain : Blockchain)
  | deploymentSubmission (chain : Blockchain)
  | paymentRollback (chain : Blockchain)
deriving DecidableEq, Repr

/-- The outcome of one deployment request. -/
inductive DeploymentOutcome where
  | success (taskId : TaskId)
  | partialDeploymentError (taskId : TaskId) (failures : List (Blockchain × String))
  | paymentSubmissionError (cause : String)
  | invalidRequest
deriving DecidableEq, Repr

/-- The environment seen by one deployment: the payment submission's outcome
on the payment chain, each target chain's deployment-submission outcome, and
the task identifier freshly generated for this request. -/
structure DeploymentEnv where
  paymentResult : Except String Unit
  deployResult : Blockchain → Except String Unit
  freshTaskId : TaskId

/-- Modelled from the spec: the request validation of the Deployment
Coordinator's step 1: the deployment chain list must be non-empty and the
token supply non-negative. -/
def validRequest (req : TokenDeploymentRequest) : Bool :=
  decide (req.deploymentBlockchains ≠ []) && decide (0 ≤ req.tokenSupply)

/-- The per-chain deployment submissions that failed, with their causes. -/
def deployFailures (env : DeploymentEnv) (chains : List Blockchain) :
    List (Blockchain × String) :=
  chains.filterMap (fun c =>
    match env.deployResult c with
    | Except.error e => some (c, e)
    | Except.ok _ => none)

/-- Modelled from the spec: the Deployment Coordinator's `deploy_token` (the
`TokenDeploymentInteractor` is not in the source tree). Validates the
request, generates one correlating task identifier, submits exactly one
payment transaction on the payment chain, and — only if the payment
submission succeeded — fans deployment submissions out to every target
chain; a failed payment aborts immediately with `PaymentSubmissionError`
and no deployment submission is issued; per-chain failures after a
successful payment are aggregated into a single `PartialDeploymentError`
without rolling the payment back. The result pairs the ordered trace of
submissions with the outcome. -/
def deployToken (env : DeploymentEnv) (req : TokenDeploymentRequest) :
    List DeploymentEvent × DeploymentOutcome :=
  if ¬ validRequest req then ([], DeploymentOutcome.invalidRequest)
  else
    match env.paymentResult with
    | Except.error e =>
      ([DeploymentEvent.paymentSubmission req.paymentBlockchain],
       DeploymentOutcome.paymentSubmissionError e)
    | Except.ok _ =>
      (DeploymentEvent.paymentSubmission req.paymentBlockchain ::
        req.deploymentBlockchains.map DeploymentEvent.deploymentSubmission,
       if (deployFailures env req.deploymentBlockchains).isEmpty then
         DeploymentOutcome.success env.freshTaskId
       else
         DeploymentOutcome.partialDeploymentError env.freshTaskId
           (deployFailures env req.deploymentBlockchains))

/-! ### The public error class (`api.py` lines 42-43 and the docstrings) -/

/-- The exception classes exposed by `api.py` to library users: a single
class. The spec's distinct error kinds are message-level distinctions, not
distinct exception types at the public interface. -/
inductive ApiExceptionClass where
  | clientError
deriving DecidableEq, Repr

/-- The library-internal error class
(`pantos.client.library.exceptions.ClientError`, imported by `api.py`). -/
def ClientError : ApiExceptionClass := ApiExceptionClass.clientError

/-- `api.py` line 43: `PantosClientError = _ClientError` — the exception to
be used by external client library users is the internal class itself. -/
def PantosClientError : ApiExceptionClass := ClientError

/-- The five public operations exported by `api.py`'s `__all__`. -/
inductive PublicOperation where
  | decryptPrivateKeyOp
  | retrieveServiceNodeBidsOp
  | retrieveTokenBalanceOp
  | transferTokensOp
  | deployPantosCompatibleTokenOp
deriving DecidableEq, Repr

/-- The exception class each public operation's docstring documents under
"Raises" (`api.py` lines 64-68, 99-103, 136-140, 187-191, 236-239): every
one of them names `PantosClientError`. -/
def documentedRaises : PublicOperation → ApiExceptionClass
  | PublicOperation.decryptPrivateKeyOp => PantosClientError
  | PublicOperation.retrieveServiceNodeBidsOp => PantosClientError
  | PublicOperation.retrieveTokenBalanceOp => PantosClientError
  | PublicOperation.transferTokensOp => PantosClientError
  | PublicOperation.deployPantosCompatibleTokenOp => PantosClientError

/-- Whether a deployment-coordinator event is a payment submission. -/
def isPaymentEvent : DeploymentEvent → Bool
  | DeploymentEvent.paymentSubmission _ => true
  | _ => false

/-- A concrete bid-query environment: both chains resolvable, one reachable
node with a live and an expired bid, one unreachable node. -/
def demoBidEnv : BidQueryEnv :=
  ⟨fun _ => true,
   [("n1", some [⟨100, 5, 10⟩, ⟨80, 5, 0⟩]), ("n2", none)], 3, 2⟩

/-- A concrete balance environment: every query answers 250 subunits. -/
def demoBalanceEnv : BalanceEnv :=
  ⟨fun k => k ++ "@",
   fun _ t => match t with
     | TokenId.address a => a
     | TokenId.symbol s => s,
   fun _ _ _ => some 250, 2⟩

/-- A concrete deployment request across three chains, paid on Ethereum. -/
def demoDeploymentRequest : TokenDeploymentRequest :=
  ⟨"Token", "TOK", 8, false, false, 1000,
   [Blockchain.ethereum, Blockchain.fantom, Blockchain.avalanche],
   Blockchain.ethereum, "payer-key"⟩

/-- A concrete deployment environment whose payment submission fails. -/
def demoFailPaymentEnv : DeploymentEnv :=
  ⟨Except.error "payment chain unreachable", fun _ => Except.ok (), 7⟩

/-- A concrete deployment environment whose payment succeeds and whose
Fantom deployment submission fails. -/
def demoPartialEnv : DeploymentEnv :=
  ⟨Except.ok (),
   fun c => if c = Blockchain.fantom then Except.error "boom" else Except.ok (),
   42⟩

/-! ## Theorems -/

/-- C2: for every decimal count `d` and every decimal amount `x` expressible
with at most `d` fractional digits, `toMainUnit (toSubunit x d) d = x`; and a
main-unit value with more than `d` fractional digits makes the conversion
fail with an `InvalidAmount` error. -/
theorem toSubunit_toMainUnit_round_trip (d : ℕ) (x : ℚ) :
    (FracDigitsLE x d →
      ∃ s : ℤ, toSubunit x d = Except.ok s ∧ toMainUnit s d = x) ∧
    (¬ FracDigitsLE x d →
      toSubunit x d = Except.error UnitConversionError.invalidAmount) := by
  constructor
  · rintro ⟨n, rfl⟩
    have h10 : ((10 : ℚ)) ^ d ≠ 0 := by positivity
    have hx : (n : ℚ) / 10 ^ d * 10 ^ d = (n : ℚ) := div_mul_cancel₀ _ h10
    exact ⟨n, by simp [toSubunit, hx], by simp [toMainUnit]⟩
  · intro h
    rw [toSubunit, if_neg]
    intro hden
    refine h ⟨(x * 10 ^ d).num, ?_⟩
    have h10 : ((10 : ℚ)) ^ d ≠ 0 := by positivity
    have hnum : ((x * 10 ^ d).num : ℚ) = x * 10 ^ d :=
      (Rat.den_eq_one_iff _).mp hden
    rw [hnum]
    field_simp

/-- Witness for C2 at `x = 3/4`, `d = 2`. -/
theorem toSubunit_toMainUnit_round_trip_witness :
    ∃ s : ℤ, toSubunit (3 / 4 : ℚ) 2 = Except.ok s ∧
      toMainUnit s 2 = (3 / 4 : ℚ) :=
  (toSubunit_toMainUnit_round_trip 2 (3 / 4)).1 ⟨75, by norm_num⟩

/-- C5: `selectBid` fails with `NoBidsAvailable` on an empty candidate set
without an override; it fails with `ExpiredBid` on an override whose validity
window has already elapsed at submission time; an override still within its
validity window is used verbatim. -/
theorem selectBid_empty_and_override (bids : List BlockchainAddressBidPair)
    (now : ℕ) (p : BlockchainAddressBidPair) :
    selectBid [] none now = Except.error BidSelectionError.noBidsAvailable ∧
    (p.2.validUntil < now →
      selectBid bids (some p) now = Except.error BidSelectionError.expiredBid) ∧
    (now ≤ p.2.validUntil → selectBid bids (some p) now = Except.ok p) := by
  refine ⟨rfl, fun h => ?_, fun h => ?_⟩
  · simp [selectBid, Nat.not_le.mpr h]
  · simp [selectBid, h]

/-- Witness for C5: an override valid until time 0, submitted at time 5, is
rejected as expired. -/
theorem selectBid_empty_and_override_witness :
    selectBid [] (some ("a", ⟨1, 1, 0⟩)) 5 =
      Except.error BidSelectionError.expiredBid :=
  (selectBid_empty_and_override [] 5 ("a", ⟨1, 1, 0⟩)).2.1 (by decide)

/-- C1: on every non-empty candidate set (and no override), `selectBid`
returns a candidate bid whose fee is minimal across all nodes and all their
bids; among bids of equal minimal fee its estimated execution time is
minimal, and among those its service-node address is lexicographically
least. -/
theorem selectBid_min_fee (bids : List BlockchainAddressBidPair) (now : ℕ)
    (h : bids ≠ []) :
    ∃ p, selectBid bids none now = Except.ok p ∧ p ∈ bids ∧
      (∀ q ∈ bids, p.2.fee ≤ q.2.fee) ∧
      (∀ q ∈ bids, q.2.fee = p.2.fee → p.2.executionTime ≤ q.2.executionTime) ∧
      (∀ q ∈ bids, q.2.fee = p.2.fee → q.2.executionTime = p.2.executionTime →
        p.1 ≤ q.1) := by
  obtain ⟨p, hp⟩ : ∃ p, bids.argmin bidKey = some p := by
    cases hm : bids.argmin bidKey with
    | none => exact absurd (List.argmin_eq_none.mp hm) h
    | some p => exact ⟨p, rfl⟩
  have hle : ∀ q ∈ bids, bidKey p ≤ bidKey q := fun q hq =>
    List.le_of_mem_argmin hq hp
  have key : ∀ q ∈ bids,
      p.2.fee < q.2.fee ∨ p.2.fee = q.2.fee ∧
        (p.2.executionTime < q.2.executionTime ∨
          p.2.executionTime = q.2.executionTime ∧ p.1 ≤ q.1) := by
    intro q hq
    have hk : toLex (p.2.fee, toLex (p.2.executionTime, p.1)) ≤
        toLex (q.2.fee, toLex (q.2.executionTime, q.1)) := hle q hq
    rcases (Prod.Lex.le_iff _ _).mp hk with h1 | ⟨h1, h2⟩
    · exact Or.inl h1
    · refine Or.inr ⟨h1, ?_⟩
      rcases (Prod.Lex.le_iff _ _).mp h2 with h3 | ⟨h3, h4⟩
      · exact Or.inl h3
      · exact Or.inr ⟨h3, h4⟩
  refine ⟨p, by simp [selectBid, hp], List.argmin_mem hp, ?_, ?_, ?_⟩
  · intro q hq
    rcases key q hq with h1 | ⟨h1, _⟩
    · exact h1.le
    · exact h1.le
  · intro q hq hf
    rcases key q hq with h1 | ⟨_, h2⟩
    · exact absurd (hf ▸ h1) (lt_irrefl _)
    · rcases h2 with h3 | ⟨h3, _⟩
      · exact h3.le
      · exact h3.le
  · intro q hq hf he
    rcases key q hq with h1 | ⟨_, h2⟩
    · exact absurd (hf ▸ h1) (lt_irrefl _)
    · rcases h2 with h3 | ⟨_, h4⟩
      · exact absurd (he ▸ h3) (lt_irrefl _)
      · exact h4

/-- Witness for C1: among fees 5, 3, 3 the fee-3 bids win, and among those
the one with execution time 1 wins. -/
theorem selectBid_min_fee_witness :
    selectBid [("b", ⟨5, 2, 9⟩), ("a", ⟨3, 7, 9⟩), ("c", ⟨3, 1, 9⟩)] none 0 =
      Except.ok ("c", ⟨3, 1, 9⟩) := by
  obtain ⟨p, hp, hmem, hfee, hexec, -⟩ :=
    selectBid_min_fee [("b", ⟨5, 2, 9⟩), ("a", ⟨3, 7, 9⟩), ("c", ⟨3, 1, 9⟩)] 0
      (by decide)
  rw [hp]
  simp only [List.mem_cons, List.not_mem_nil, or_false] at hmem
  rcases hmem with rfl | rfl | rfl
  · exact absurd (hfee ("c", ⟨3, 1, 9⟩) (by simp)) (by decide)
  · exact absurd (hexec ("c", ⟨3, 1, 9⟩) (by simp) (by decide)) (by decide)
  · rfl

/-- Helper: characterisation of membership in the post-processed bid list of
one node. -/
theorem mem_processNodeBids (bs : List ServiceNodeBid) (now : ℕ) (main : Bool)
    (d : ℕ) (rb : RetrievedBid) :
    rb ∈ processNodeBids bs now main d ↔
      ∃ b ∈ bs, now ≤ b.validUntil ∧
        rb = ⟨convertFee b.fee main d, b.executionTime, b.validUntil⟩ := by
  constructor
  · intro h
    obtain ⟨b, hb, hrb⟩ := List.mem_map.mp h
    have hb' := List.mem_filter.mp hb
    exact ⟨b, hb'.1, by simpa using hb'.2, hrb.symm⟩
  · rintro ⟨b, hb, hvalid, rfl⟩
    exact List.mem_map.mpr
      ⟨b, List.mem_filter.mpr ⟨hb, by simpa using hvalid⟩, rfl⟩

/-- Helper: the successful node queries are empty exactly when every node
query failed. -/
theorem successfulQueries_eq_nil_iff (env : BidQueryEnv) :
    successfulQueries env = [] ↔
      ∀ p ∈ env.nodeQueryResults, p.2 = none := by
  rw [successfulQueries, List.filterMap_eq_nil_iff]
  constructor
  · intro h p hp
    have := h p hp
    exact Option.map_eq_none'.mp this
  · intro h p hp
    rw [h p hp]
    rfl

/-- Helper: the node addresses surviving the per-node query step are exactly
the addresses of the nodes whose query succeeded. -/
theorem successfulQueries_keys
    (l : List (BlockchainAddress × Option (List ServiceNodeBid))) :
    (l.filterMap (fun p => p.2.map (fun bs => (p.1, bs)))).map Prod.fst =
      (l.filter (fun p => p.2.isSome)).map Prod.fst := by
  induction l with
  | nil => rfl
  | cons p l ih =>
    cases h : p.2 with
    | none => simp [List.filterMap_cons, List.filter_cons, h, ih]
    | some bs => simp [List.filterMap_cons, List.filter_cons, h, ih]

/-- Helper: a list of deployment submissions contains no payment
submission. -/
theorem countP_isPaymentEvent_map (l : List Blockchain) :
    (l.map DeploymentEvent.deploymentSubmission).countP isPaymentEvent = 0 := by
  induction l with
  | nil => rfl
  | cons c l ih => simp [List.countP_cons, isPaymentEvent, ih]

/-- C6: a `transferTokens` call whose explicit bid override has already
expired fails with `ExpiredBid` and performs no adapter submission (the
trace of adapter interactions is empty). -/
theorem transferTokens_expired_override (env : TransferEnv)
    (req : TransferRequest) (p : BlockchainAddressBidPair)
    (ho : req.serviceNodeBid = some p) (he : p.2.validUntil < env.now) :
    (transferTokens env req).2 = Except.error TransferFailure.expiredBid ∧
    (transferTokens env req).1 = [] := by
  have hs : selectBid env.bids req.serviceNodeBid env.now =
      Except.error BidSelectionError.expiredBid := by
    rw [ho]
    simp [selectBid, Nat.not_le.mpr he]
  constructor <;> simp [transferTokens, hs]

/-- Witness for C6: an override valid until time 0 submitted at time 5. -/
theorem transferTokens_expired_override_witness :
    (transferTokens ⟨[], Except.ok 7, 5⟩
        ⟨Blockchain.ethereum, Blockchain.avalanche, "key", "recipient",
          TokenId.symbol "PAN", 1, some ("a", ⟨1, 1, 0⟩)⟩).2 =
      Except.error TransferFailure.expiredBid ∧
    (transferTokens ⟨[], Except.ok 7, 5⟩
        ⟨Blockchain.ethereum, Blockchain.avalanche, "key", "recipient",
          TokenId.symbol "PAN", 1, some ("a", ⟨1, 1, 0⟩)⟩).1 = [] :=
  transferTokens_expired_override _ _ ("a", ⟨1, 1, 0⟩) rfl (by decide)

/-- C3: in every execution of the deployment coordinator, any per-chain
deployment submission occurs strictly after the single payment submission
(which is the first event of the trace), and a failed payment submission
yields `PaymentSubmissionError` with no per-chain deployment submission ever
issued. -/
theorem deployToken_payment_first (env : DeploymentEnv)
    (req : TokenDeploymentRequest) :
    (∀ c i, (deployToken env req).1[i]? =
        some (DeploymentEvent.deploymentSubmission c) →
      0 < i ∧ (deployToken env req).1[0]? =
        some (DeploymentEvent.paymentSubmission req.paymentBlockchain)) ∧
    (deployToken env req).1.countP isPaymentEvent ≤ 1 ∧
    (∀ e, validRequest req = true → env.paymentResult = Except.error e →
      (deployToken env req).2 = DeploymentOutcome.paymentSubmissionError e ∧
      ∀ c, DeploymentEvent.deploymentSubmission c ∉ (deployToken env req).1) := by
  by_cases hv : validRequest req
  · cases hpay : env.paymentResult with
    | error e0 =>
      have ht : (deployToken env req).1 =
          [DeploymentEvent.paymentSubmission req.paymentBlockchain] := by
        simp [deployToken, hv, hpay]
      refine ⟨?_, ?_, ?_⟩
      · intro c i hi
        rw [ht] at hi
        cases i with
        | zero => simp at hi
        | succ j => simp at hi
      · rw [ht]
        simp [List.countP_cons, isPaymentEvent]
      · intro e hv' hpe
        injection hpe with h
        subst h
        refine ⟨by simp [deployToken, hv, hpay], ?_⟩
        intro c
        rw [ht]
        simp
    | ok u =>
      have ht : (deployToken env req).1 =
          DeploymentEvent.paymentSubmission req.paymentBlockchain ::
            req.deploymentBlockchains.map
              DeploymentEvent.deploymentSubmission := by
        simp [deployToken, hv, hpay]
      refine ⟨?_, ?_, ?_⟩
      · intro c i hi
        rw [ht] at hi ⊢
        cases i with
        | zero => simp at hi
        | succ j => exact ⟨Nat.succ_pos j, by simp⟩
      · rw [ht]
        simp [List.countP_cons, isPaymentEvent, countP_isPaymentEvent_map]
      · intro e hv' hpe
        exact Except.noConfusion hpe
  · have ht : (deployToken env req).1 = [] := by simp [deployToken, hv]
    refine ⟨?_, ?_, ?_⟩
    · intro c i hi
      rw [ht] at hi
      simp at hi
    · rw [ht]
      simp
    · intro e hv' hpe
      exact absurd hv' hv

/-- Witness for C3: with an unreachable payment chain, the coordinator
reports `PaymentSubmissionError` and issues no deployment submission. -/
theorem deployToken_payment_first_witness :
    (deployToken demoFailPaymentEnv demoDeploymentRequest).2 =
      DeploymentOutcome.paymentSubmissionError "payment chain unreachable" ∧
    DeploymentEvent.deploymentSubmission Blockchain.ethereum ∉
      (deployToken demoFailPaymentEnv demoDeploymentRequest).1 := by
  have h := (deployToken_payment_first demoFailPaymentEnv
      demoDeploymentRequest).2.2 "payment chain unreachable" (by decide) rfl
  exact ⟨h.1, h.2 Blockchain.ethereum⟩

/-- C4: after a successful payment submission, if some per-chain deployment
submissions fail while at least one succeeds, the coordinator aggregates all
per-chain failures (exactly the failed chains, with their causes) into a
single `PartialDeploymentError` carrying the one task identifier generated
for the whole request, never emits a payment rollback, and keeps the payment
submission in the trace. -/
theorem deployToken_partial_failure (env : DeploymentEnv)
    (req : TokenDeploymentRequest) (hv : validRequest req = true)
    (hp : env.paymentResult = Except.ok ())
    (hf : deployFailures env req.deploymentBlockchains ≠ [])
    (_hs : ∃ c ∈ req.deploymentBlockchains, env.deployResult c = Except.ok ()) :
    (deployToken env req).2 =
      DeploymentOutcome.partialDeploymentError env.freshTaskId
        (deployFailures env req.deploymentBlockchains) ∧
    (∀ c e, (c, e) ∈ deployFailures env req.deploymentBlockchains ↔
      c ∈ req.deploymentBlockchains ∧ env.deployResult c = Except.error e) ∧
    (∀ c, DeploymentEvent.paymentRollback c ∉ (deployToken env req).1) ∧
    DeploymentEvent.paymentSubmission req.paymentBlockchain ∈
      (deployToken env req).1 := by
  have hne : (deployFailures env req.deploymentBlockchains).isEmpty = false := by
    cases hcase : deployFailures env req.deploymentBlockchains with
    | nil => exact absurd hcase hf
    | cons a l => rfl
  have ht : (deployToken env req).1 =
      DeploymentEvent.paymentSubmission req.paymentBlockchain ::
        req.deploymentBlockchains.map DeploymentEvent.deploymentSubmission := by
    simp [deployToken, hv, hp]
  refine ⟨?_, ?_, ?_, ?_⟩
  · simp [deployToken, hv, hp, hne]
  · intro c e
    simp only [deployFailures, List.mem_filterMap]
    constructor
    · rintro ⟨a, ha, hma⟩
      cases hda : env.deployResult a with
      | error e0 =>
        rw [hda] at hma
        simp only [Option.some.injEq, Prod.mk.injEq] at hma
        obtain ⟨h1, h2⟩ := hma
        subst h1
        subst h2
        exact ⟨ha, hda⟩
      | ok u =>
        rw [hda] at hma
        exact Option.noConfusion hma
    · rintro ⟨hc, hd⟩
      exact ⟨c, hc, by rw [hd]⟩
  · intro c
    rw [ht]
    simp
  · rw [ht]
    exact List.mem_cons_self _ _

/-- Witness for C4: three target chains with one failing adapter yield a
`PartialDeploymentError` naming exactly that chain, with the request's task
identifier. -/
theorem deployToken_partial_failure_witness :
    (deployToken demoPartialEnv demoDeploymentRequest).2 =
      DeploymentOutcome.partialDeploymentError 42
        [(Blockchain.fantom, "boom")] := by
  have h := (deployToken_partial_failure demoPartialEnv demoDeploymentRequest
      (by decide) rfl (by decide)
      ⟨Blockchain.ethereum, by decide, rfl⟩).1
  exact h

/-- C7: on success, `retrieveServiceNodeBids` maps each returned node to the
node's queried bids with every bid whose validity window has already elapsed
discarded and every surviving bid's fee converted: divided by
`10 ^ decimals` into the PAN main unit when `returnFeeInMainUnit` is true
(the `api.py` default), kept as the subunit integer value when it is
false. -/
theorem retrieveServiceNodeBids_filters_and_converts (env : BidQueryEnv)
    (src dst : Blockchain) (main : Bool)
    (out : List (BlockchainAddress × List RetrievedBid))
    (hok : retrieveServiceNodeBids env src dst main = Except.ok out) :
    (∀ a rbs, (a, rbs) ∈ out →
      ∃ bs, (a, some bs) ∈ env.nodeQueryResults ∧
        (∀ rb ∈ rbs, ∃ b ∈ bs, env.now ≤ b.validUntil ∧
          rb = ⟨convertFee b.fee main env.panDecimals, b.executionTime,
                b.validUntil⟩) ∧
        (∀ b ∈ bs, env.now ≤ b.validUntil →
          (⟨convertFee b.fee main env.panDecimals, b.executionTime,
            b.validUntil⟩ : RetrievedBid) ∈ rbs)) ∧
    (∀ f d, convertFee f true d = (f : ℚ) / 10 ^ d ∧
      convertFee f false d = (f : ℚ)) ∧
    apiDefaultReturnFeeInMainUnit = true := by
  refine ⟨?_, fun f d => ⟨rfl, rfl⟩, rfl⟩
  rw [retrieveServiceNodeBids] at hok
  split_ifs at hok with h1 h2
  injection hok with hout
  intro a rbs hmem
  rw [← hout] at hmem
  obtain ⟨p, hp, hpa⟩ := List.mem_map.mp hmem
  have hpa1 : p.1 = a := congrArg Prod.fst hpa
  have hpa2 : processNodeBids p.2 env.now main env.panDecimals = rbs :=
    congrArg Prod.snd hpa
  obtain ⟨q, hq, hqp⟩ := List.mem_filterMap.mp hp
  cases hq2 : q.2 with
  | none =>
    rw [hq2] at hqp
    exact Option.noConfusion hqp
  | some bs =>
    rw [hq2] at hqp
    simp only [Option.map_some', Option.some.injEq] at hqp
    have hp2 : p.2 = bs := by rw [← hqp]
    refine ⟨bs, ?_, ?_, ?_⟩
    · have hq1 : q.1 = a := by rw [← hpa1, ← hqp]
      have hqeq : q = (a, some bs) := by rw [← hq1, ← hq2]
      rw [← hqeq]
      exact hq
    · intro rb hrb
      rw [← hpa2, hp2] at hrb
      exact (mem_processNodeBids bs env.now main env.panDecimals rb).mp hrb
    · intro b hb hvalid
      rw [← hpa2, hp2]
      exact (mem_processNodeBids bs env.now main env.panDecimals _).mpr
        ⟨b, hb, hvalid, rfl⟩

/-- Witness for C7: fee 100 in subunits with 2 decimals becomes 1 in the
main unit; the expired bid of `demoBidEnv` is discarded. -/
theorem retrieveServiceNodeBids_filters_and_converts_witness :
    (convertFee 100 true 2 = (100 : ℚ) / 10 ^ 2 ∧
      convertFee 100 false 2 = (100 : ℚ)) ∧
    apiDefaultReturnFeeInMainUnit = true := by
  have h := retrieveServiceNodeBids_filters_and_converts demoBidEnv
    Blockchain.ethereum Blockchain.avalanche true
    [("n1", [⟨(100 : ℚ) / 10 ^ 2, 5, 10⟩])] rfl
  exact ⟨h.2.1 100 2, h.2.2⟩

/-- C8: `retrieveServiceNodeBids` fails with `BidRetrievalError` exactly when
no adapter can be resolved for the source or destination chain or there were
node queries and all of them failed; on success the returned mapping's node
addresses are exactly those of the nodes whose query succeeded — unreachable
nodes are omitted. -/
theorem retrieveServiceNodeBids_error_iff (env : BidQueryEnv)
    (src dst : Blockchain) (main : Bool) :
    ((∃ e, retrieveServiceNodeBids env src dst main = Except.error e) ↔
      (env.resolvable src = false ∨ env.resolvable dst = false ∨
        (env.nodeQueryResults ≠ [] ∧
          ∀ p ∈ env.nodeQueryResults, p.2 = none))) ∧
    (∀ out, retrieveServiceNodeBids env src dst main = Except.ok out →
      out.map Prod.fst =
        (env.nodeQueryResults.filter (fun p => p.2.isSome)).map Prod.fst) := by
  constructor
  · constructor
    · rintro ⟨e, he⟩
      rw [retrieveServiceNodeBids] at he
      split_ifs at he with h1 h2
      · rcases h1 with h | h
        · exact Or.inl (by simpa using h)
        · exact Or.inr (Or.inl (by simpa using h))
      · exact Or.inr (Or.inr
          ⟨h2.1, (successfulQueries_eq_nil_iff env).mp h2.2⟩)
    · intro h
      rw [retrieveServiceNodeBids]
      split_ifs with h1 h2
      · exact ⟨_, rfl⟩
      · exact ⟨_, rfl⟩
      · exfalso
        rcases h with h | h | ⟨hne, hall⟩
        · exact h1 (Or.inl (by simp [h]))
        · exact h1 (Or.inr (by simp [h]))
        · exact h2 ⟨hne, (successfulQueries_eq_nil_iff env).mpr hall⟩
  · intro out hout
    rw [retrieveServiceNodeBids] at hout
    split_ifs at hout with h1 h2
    injection hout with h
    rw [← h, successfulQueries, List.map_map]
    have hcomp : (Prod.fst ∘ fun p :
        BlockchainAddress × List ServiceNodeBid =>
          (p.1, processNodeBids p.2 env.now main env.panDecimals)) =
        Prod.fst := rfl
    rw [hcomp]
    exact successfulQueries_keys env.nodeQueryResults

/-- Witness for C8: on `demoBidEnv` the successful call returns only the
reachable node `n1`, omitting the unreachable `n2`. -/
theorem retrieveServiceNodeBids_error_iff_witness :
    ([("n1", [(⟨(100 : ℚ) / 10 ^ 2, 5, 10⟩ : RetrievedBid)])].map Prod.fst :
        List BlockchainAddress) =
      (demoBidEnv.nodeQueryResults.filter (fun p => p.2.isSome)).map
        Prod.fst :=
  (retrieveServiceNodeBids_error_iff demoBidEnv Blockchain.ethereum
    Blockchain.avalanche true).2 _ rfl

/-- C9: `retrieveTokenBalance` accepts either an address (used as is) or an
unencrypted private key (the address is derived from it), defaults the token
to PAN and the unit flag to the main unit, returns an integer subunit amount
when the flag is false and a decimal main-unit amount when it is true, and
fails with `BalanceRetrievalError` when the balance cannot be retrieved. -/
theorem retrieveTokenBalance_spec (env : BalanceEnv) (blockchain : Blockchain)
    (a : BlockchainAddress) (k : PrivateKey) (acc : AccountId) (tok : TokenId)
    (n : ℕ) :
    resolveAccount env (AccountId.address a) = a ∧
    resolveAccount env (AccountId.privateKey k) = env.deriveAddress k ∧
    apiDefaultTokenId = TokenId.symbol TOKEN_SYMBOL_PAN ∧
    apiDefaultReturnInMainUnit = true ∧
    (env.balanceOf blockchain (env.resolveToken blockchain tok)
        (resolveAccount env acc) = none →
      ∀ m : Bool, retrieveTokenBalance env blockchain acc tok m =
        Except.error BalanceFailure.balanceRetrievalError) ∧
    (env.balanceOf blockchain (env.resolveToken blockchain tok)
        (resolveAccount env acc) = some n →
      retrieveTokenBalance env blockchain acc tok false =
        Except.ok (Amount.subunit n) ∧
      retrieveTokenBalance env blockchain acc tok true =
        Except.ok (Amount.mainUnit ((n : ℚ) / 10 ^ env.decimals))) := by
  refine ⟨rfl, rfl, rfl, rfl, ?_, ?_⟩
  · intro h m
    simp [retrieveTokenBalance, h]
  · intro h
    constructor <;> simp [retrieveTokenBalance, h]

/-- Witness for C9: a 250-subunit balance returned as an integer subunit
amount for the default PAN token. -/
theorem retrieveTokenBalance_spec_witness :
    retrieveTokenBalance demoBalanceEnv Blockchain.ethereum
        (AccountId.address "acct") apiDefaultTokenId false =
      Except.ok (Amount.subunit 250) :=
  ((retrieveTokenBalance_spec demoBalanceEnv Blockchain.ethereum "x" "k"
    (AccountId.address "acct") apiDefaultTokenId 250).2.2.2.2.2 rfl).1

/-- C10: the public interface signals every failure through the single
exception class `PantosClientError`, which is the same class as the
library-internal `ClientError`; every public operation's documented failure
class is that one class, and `api.py` exposes no other exception class, so
the spec's distinct error kinds are not distinct exception types there. -/
theorem public_error_class_unique :
    PantosClientError = ClientError ∧
    (∀ op : PublicOperation, documentedRaises op = PantosClientError) ∧
    (∀ c d : ApiExceptionClass, c = d) := by
  refine ⟨rfl, fun op => ?_, fun c d => ?_⟩
  · cases op <;> rfl
  · cases c
    cases d
    rfl

end Pantos
